import Mathlib

/-!
Shallow embedding of the `all-in-be` identity backend core:
credential validation, password hashing/verification (bcrypt modelled
abstractly), the user directory (Postgres `users` table semantics), the
register/login handlers, and the JWT token issuer.

Go strings are modelled as Lean `String` (sequences of Unicode scalar
values); Go's `len` on a string counts UTF-8 bytes and is modelled by
`goLen`.  Time is modelled in nanoseconds (`time.Time` / `time.Duration`
granularity); `Unix()` is division by `nsPerSecond`.
-/

namespace AllInBe

/-- Go `unicode.IsSpace`: the White_Space property code points. -/
def goIsSpace (c : Char) : Bool :=
  let n := c.toNat
  n == 9 || n == 10 || n == 11 || n == 12 || n == 13 || n == 32 ||
  n == 0x85 || n == 0xA0 || n == 0x1680 ||
  (0x2000 ≤ n && n ≤ 0x200A) ||
  n == 0x2028 || n == 0x2029 || n == 0x202F || n == 0x205F || n == 0x3000

/-- Go `strings.TrimSpace`: drop leading and trailing white space. -/
def trimSpace (s : String) : String :=
  String.mk (((s.data.dropWhile goIsSpace).reverse.dropWhile goIsSpace).reverse)

/-- Number of UTF-8 bytes encoding a Unicode scalar value. -/
def utf8Len (c : Char) : Nat :=
  if c.toNat < 0x80 then 1
  else if c.toNat < 0x800 then 2
  else if c.toNat < 0x10000 then 3
  else 4

/-- Go `len` on a string: the number of UTF-8 bytes. -/
def goLen (s : String) : Nat :=
  (s.data.map utf8Len).sum

/-- Go `utf8.ValidString`.  Lean `String` values are sequences of Unicode
scalar values, hence valid UTF-8 by construction: on the embedded domain
the check is constantly `true`. -/
def utf8ValidString (_s : String) : Bool := true

/-- `validateCredentials` from the handlers package: empty-after-trim
checks on username/email/phone, then the trimmed password must have at
least 8 bytes and the password must be valid UTF-8.  Returns the Go
error message, `none` on success. -/
def validateCredentials (username email phone password : String) : Option String :=
  if trimSpace username == "" || trimSpace email == "" || trimSpace phone == "" then
    some "username, email, and phone are required"
  else if goLen (trimSpace password) < 8 || !utf8ValidString password then
    some "password must be at least 8 characters"
  else
    none

/-- `hashPassword` / `bcrypt.GenerateFromPassword`, modelled abstractly:
the random salt drawn by bcrypt is made an explicit parameter, the cost is
`bcrypt.DefaultCost = 10`, and the one-way digest is modelled by a
collision-free record of the hashed password (only its functional
behaviour — verification and per-salt distinctness — is used). -/
structure BcryptHash where
  cost : Nat
  salt : Nat
  digest : String
deriving DecidableEq, Repr

/-- `bcrypt.GenerateFromPassword` at `bcrypt.DefaultCost`. -/
def hashPassword (salt : Nat) (password : String) : BcryptHash :=
  { cost := 10, salt := salt, digest := password }

/-- `bcrypt.CompareHashAndPassword`: `true` iff the password matches the
one the hash was derived from. -/
def compareHashAndPassword (h : BcryptHash) (password : String) : Bool :=
  h.digest == password

/-- `models.User` (the richer variant with role/permissions/balance):
`PasswordHash` carries the bcrypt hash and is tagged `json:"-"`. -/
structure User where
  id : Nat
  username : String
  email : String
  phone : String
  role : String
  permissions : List String
  balance : Int
  passwordHash : BcryptHash
  createdAt : Nat
deriving DecidableEq, Repr

/-- The role label constant `models.NormalUser` (the `models` constant
block alongside `VIPUser`/`VVIPUser`): the default tier the register
handler assigns.  Its concrete value is opaque to every claim. -/
def NormalUser : String := "player"

/-- `storage.ErrNotFound` / `storage.ErrAlreadyExists`, plus the opaque
internal failures of the store. -/
inductive StoreError where
  | notFound
  | alreadyExists
  | internal
deriving DecidableEq, Repr

/-- State of the Postgres `users` table: the stored rows in insertion
order plus the `BIGSERIAL` id counter. -/
structure Directory where
  users : List User
  nextId : Nat
deriving Repr

/-- The empty directory; `BIGSERIAL` ids start at 1. -/
def emptyDir : Directory := { users := [], nextId := 1 }

/-- Username uniqueness: the `username TEXT UNIQUE` constraint fires iff
some stored row has this username. -/
def usernameTaken (d : Directory) (username : String) : Bool :=
  d.users.any (fun u => u.username == username)

/-- Email uniqueness: the `email TEXT UNIQUE` constraint. -/
def emailTaken (d : Directory) (email : String) : Bool :=
  d.users.any (fun u => u.email == email)

/-- `Store.CreateUser`: `INSERT INTO users (username, email, phone,
password_hash) VALUES ... RETURNING id, username, email, phone,
password_hash, created_at`.  A uniqueness violation (Postgres error
23505) maps to `ErrAlreadyExists`.  Only the four inserted columns are
persisted; the scanned result leaves role/permissions/balance at their
zero values, and the directory assigns id and creation time. -/
def CreateUser (d : Directory) (user : User) (now : Nat) :
    Except StoreError (User × Directory) :=
  if usernameTaken d user.username || emailTaken d user.email then
    .error .alreadyExists
  else
    let created : User :=
      { id := d.nextId, username := user.username, email := user.email,
        phone := user.phone, role := "", permissions := [], balance := 0,
        passwordHash := user.passwordHash, createdAt := now }
    .ok (created, { users := d.users ++ [created], nextId := d.nextId + 1 })

/-- `Store.FindByUsernameOrEmail`: `SELECT ... WHERE username = $1 OR
email = $1 LIMIT 1`; the first stored row matching the identifier as
username or email, `ErrNotFound` when no row matches. -/
def FindByUsernameOrEmail (d : Directory) (identifier : String) :
    Except StoreError User :=
  match d.users.find? (fun u => u.username == identifier || u.email == identifier) with
  | some u => .ok u
  | none => .error .notFound

/-- One second in `time.Duration` units (nanoseconds). -/
def nsPerSecond : Nat := 1000000000

/-- `auth.TokenManager`: signing secret, issuer, lifetime (`time.Duration`,
nanoseconds). -/
structure TokenManager where
  secret : String
  issuer : String
  ttl : Nat
deriving DecidableEq, Repr

/-- `auth.NewTokenManager`. -/
def NewTokenManager (secret issuer : String) (ttl : Nat) : TokenManager :=
  { secret := secret, issuer := issuer, ttl := ttl }

/-- The `jwt.MapClaims` set built by `TokenManager.Generate`:
`iss`, `sub`, `username`, `email`, `iat`, `nbf`, `exp` (Unix seconds). -/
structure TokenClaims where
  iss : String
  sub : String
  username : String
  email : String
  iat : Nat
  nbf : Nat
  exp : Nat
deriving DecidableEq, Repr

/-- A signed JWT, modelled as its semantic content: the signing
algorithm, the claims set, and the key the HMAC signature binds it to
(the symmetric signature is determined by key and claims, so recording
the key models it faithfully). -/
structure SignedToken where
  alg : String
  claims : TokenClaims
  signedWith : String
deriving DecidableEq, Repr

/-- `TokenManager.Generate`: claims from the user record and the current
time (`now` in nanoseconds; `Unix()` is division by `nsPerSecond`),
signed with `jwt.SigningMethodHS256` under the manager's secret. -/
def TokenManager.Generate (t : TokenManager) (user : User) (now : Nat) : SignedToken :=
  { alg := "HS256",
    claims :=
      { iss := t.issuer,
        sub := toString user.id,
        username := user.username,
        email := user.email,
        iat := now / nsPerSecond,
        nbf := now / nsPerSecond,
        exp := (now + t.ttl) / nsPerSecond },
    signedWith := t.secret }

/-- `config.Config`, restricted to the fields the handlers and token
issuer consume. `InitBalance` is the configured starting balance the
register handler copies onto the new user (opaque to the core). -/
structure Config where
  jwtSecret : String
  jwtIssuer : String
  jwtTTL : Nat
  initBalance : Int
deriving Repr

/-- `dto.RegisterRequest`: note both `phone` and `phoneNumber` fields. -/
structure RegisterRequest where
  username : String
  email : String
  phone : String
  phoneNumber : String
  password : String
deriving DecidableEq, Repr

/-- `dto.LoginRequest`. -/
structure LoginRequest where
  identifier : String
  password : String
deriving DecidableEq, Repr

/-- An outward error response: HTTP status code and envelope message —
exactly what a caller can observe about a failure. -/
structure ErrorResponse where
  status : Nat
  message : String
deriving DecidableEq, Repr

/-- `normalizePhone`: the trimmed `phone` field when non-empty, otherwise
the trimmed `phoneNumber` field. -/
def normalizePhone (req : RegisterRequest) : String :=
  if trimSpace req.phone ≠ "" then trimSpace req.phone
  else trimSpace req.phoneNumber

/-- `handleRegister` on an already-decoded request body: validate,
hash (the bcrypt salt is the explicit `salt` argument), then
`CreateUser`; a store conflict becomes 409 "user already exists", any
other store failure 500.  Returns the response together with the
directory state after the call. -/
def handleRegister (cfg : Config) (d : Directory) (req : RegisterRequest)
    (salt : Nat) (now : Nat) : Except ErrorResponse User × Directory :=
  let phone := normalizePhone req
  match validateCredentials req.username req.email phone req.password with
  | some msg => (.error { status := 400, message := msg }, d)
  | none =>
    let passwordHash := hashPassword salt req.password
    let user : User :=
      { id := 0, username := trimSpace req.username, email := trimSpace req.email,
        phone := phone, role := NormalUser, permissions := [],
        balance := cfg.initBalance, passwordHash := passwordHash, createdAt := 0 }
    match CreateUser d user now with
    | .error .alreadyExists =>
        (.error { status := 409, message := "user already exists" }, d)
    | .error _ =>
        (.error { status := 500, message := "failed to create user" }, d)
    | .ok (created, d2) => (.ok created, d2)

/-- `handleLogin` on an already-decoded request body: empty-after-trim
check, `FindByUsernameOrEmail` on the trimmed identifier (`ErrNotFound`
becomes 401 "invalid credentials"), bcrypt comparison against the stored
hash (mismatch the same 401), then token generation.  Success returns
the token and the user record of `dto.LoginResponse`. -/
def handleLogin (tm : TokenManager) (d : Directory) (req : LoginRequest)
    (now : Nat) : Except ErrorResponse (SignedToken × User) :=
  if trimSpace req.identifier == "" || trimSpace req.password == "" then
    .error { status := 400, message := "identifier and password are required" }
  else
    match FindByUsernameOrEmail d (trimSpace req.identifier) with
    | .error .notFound =>
        .error { status := 401, message := "invalid credentials" }
    | .error _ =>
        .error { status := 500, message := "failed to fetch user" }
    | .ok user =>
        if !compareHashAndPassword user.passwordHash req.password then
          .error { status := 401, message := "invalid credentials" }
        else
          .ok (tm.Generate user now, user)

/-- JSON values, as far as the serialized user view needs them. -/
inductive Json where
  | str (s : String)
  | num (n : Int)
  | arr (xs : List Json)
deriving Repr

/-- The field list `encoding/json` produces for `models.User` under its
struct tags: every exported field except `PasswordHash`, whose tag is
`json:"-"`. -/
def userJSON (u : User) : List (String × Json) :=
  [("id", .num u.id),
   ("username", .str u.username),
   ("email", .str u.email),
   ("phone", .str u.phone),
   ("role", .str u.role),
   ("permissions", .arr (u.permissions.map .str)),
   ("balance", .num u.balance),
   ("created_at", .num u.createdAt)]

end AllInBe

namespace AllInBe

/-! ### Helper lemmas -/

theorem dropWhile_self (p : α → Bool) (l : List α) :
    (l.dropWhile p).dropWhile p = l.dropWhile p := by
  induction l with
  | nil => simp
  | cons x xs ih =>
    by_cases h : p x <;> simp [List.dropWhile_cons, h, ih]

theorem length_dropWhile_le' (p : α → Bool) (l : List α) :
    (l.dropWhile p).length ≤ l.length := by
  induction l with
  | nil => simp
  | cons x xs ih =>
    by_cases h : p x
    · simp only [List.dropWhile_cons, if_pos h, List.length_cons]
      omega
    · simp [List.dropWhile_cons, h]

theorem head_false_of_dropWhile_eq_self (p : α → Bool) (c : α) (t : List α)
    (h : (c :: t).dropWhile p = c :: t) : p c = false := by
  by_contra hc
  rw [Bool.not_eq_false] at hc
  rw [List.dropWhile_cons, if_pos hc] at h
  have := length_dropWhile_le' p t
  rw [h] at this
  simp at this

theorem dropWhile_reverse_dropWhile (p : α → Bool) (l : List α)
    (hl : l.dropWhile p = l) :
    ((l.reverse.dropWhile p).reverse).dropWhile p = (l.reverse.dropWhile p).reverse := by
  cases hr : (l.reverse.dropWhile p).reverse with
  | nil => simp
  | cons c t =>
    have hsplit : l.reverse.takeWhile p ++ l.reverse.dropWhile p = l.reverse :=
      List.takeWhile_append_dropWhile p l.reverse
    have hl2 : l = (l.reverse.dropWhile p).reverse ++ (l.reverse.takeWhile p).reverse := by
      calc l = l.reverse.reverse := (List.reverse_reverse l).symm
        _ = (l.reverse.takeWhile p ++ l.reverse.dropWhile p).reverse := by rw [hsplit]
        _ = (l.reverse.dropWhile p).reverse ++ (l.reverse.takeWhile p).reverse := by
              rw [List.reverse_append]
    rw [hr] at hl2
    obtain ⟨a, ha⟩ : ∃ a, l = (c :: t) ++ a := ⟨(l.reverse.takeWhile p).reverse, hl2⟩
    have hcons : l = c :: (t ++ a) := by rw [ha]; rfl
    rw [hcons] at hl
    have hpc : p c = false := head_false_of_dropWhile_eq_self p c (t ++ a) hl
    rw [List.dropWhile_cons, if_neg (by simp [hpc])]

/-- `strings.TrimSpace` is idempotent. -/
theorem trimSpace_trimSpace (s : String) : trimSpace (trimSpace s) = trimSpace s := by
  unfold trimSpace
  have h1 : (s.data.dropWhile goIsSpace).dropWhile goIsSpace = s.data.dropWhile goIsSpace :=
    dropWhile_self goIsSpace s.data
  have hA := dropWhile_reverse_dropWhile goIsSpace (s.data.dropWhile goIsSpace) h1
  set v := ((s.data.dropWhile goIsSpace).reverse.dropWhile goIsSpace).reverse with hv
  have hdata : (String.mk v).data = v := rfl
  rw [hdata, hA]
  have hB : v.reverse.dropWhile goIsSpace = v.reverse := by
    rw [hv, List.reverse_reverse]
    exact dropWhile_self goIsSpace (s.data.dropWhile goIsSpace).reverse
  rw [hB, List.reverse_reverse]

/-- Every Unicode scalar value takes at least one UTF-8 byte. -/
theorem one_le_utf8Len (c : Char) : 1 ≤ utf8Len c := by
  unfold utf8Len
  split <;> try omega
  split <;> try omega
  split <;> omega

/-- A string of at least 8 bytes is non-empty. -/
theorem ne_empty_of_goLen_ge (s : String) (h : 8 ≤ goLen s) : s ≠ "" := by
  intro he
  subst he
  simp [goLen] at h

/-- `find?` skips a block in which nothing matches. -/
theorem find?_append_of_none {p : α → Bool} {l₁ l₂ : List α}
    (h : ∀ x ∈ l₁, p x = false) : (l₁ ++ l₂).find? p = l₂.find? p := by
  rw [List.find?_append]
  have : l₁.find? p = none := List.find?_eq_none.mpr (by intro x hx; simp [h x hx])
  rw [this, Option.none_or]

/-- The record `handleRegister` hands to the caller on success: the row
`CreateUser` returns for the trimmed, hashed registration input. -/
def registeredUser (d : Directory) (req : RegisterRequest) (salt now : Nat) : User :=
  { id := d.nextId, username := trimSpace req.username, email := trimSpace req.email,
    phone := normalizePhone req, role := "", permissions := [], balance := 0,
    passwordHash := hashPassword salt req.password, createdAt := now }

/-- No stored record collides with the registration's username or email
on either identifying field (username and email are both looked up by
`FindByUsernameOrEmail`, so freedom is required across fields). -/
def conflictFree (d : Directory) (username email : String) : Prop :=
  ∀ u ∈ d.users, u.username ≠ username ∧ u.username ≠ email ∧
    u.email ≠ username ∧ u.email ≠ email

theorem usernameTaken_eq_false {d : Directory} {un : String}
    (h : ∀ u ∈ d.users, u.username ≠ un) : usernameTaken d un = false := by
  simp only [usernameTaken, List.any_eq_false]
  intro x hx
  simpa using h x hx

theorem emailTaken_eq_false {d : Directory} {em : String}
    (h : ∀ u ∈ d.users, u.email ≠ em) : emailTaken d em = false := by
  simp only [emailTaken, List.any_eq_false]
  intro x hx
  simpa using h x hx

/-- The characterization of successful validation: all three identity
fields non-empty after trimming and the trimmed password at least 8
UTF-8 bytes (on the embedded domain of well-formed strings). -/
theorem validate_none_iff (username email phone password : String) :
    validateCredentials username email phone password = none ↔
      (trimSpace username ≠ "" ∧ trimSpace email ≠ "" ∧ trimSpace phone ≠ "" ∧
        8 ≤ goLen (trimSpace password)) := by
  unfold validateCredentials utf8ValidString
  by_cases h1 : trimSpace username == ""
  · simp_all
  by_cases h2 : trimSpace email == ""
  · simp_all
  by_cases h3 : trimSpace phone == ""
  · simp_all
  by_cases h4 : goLen (trimSpace password) < 8
  · simp_all
  · simp_all

/-- Successful registration, fully evaluated. -/
theorem handleRegister_ok (cfg : Config) (d : Directory) (req : RegisterRequest)
    (salt now : Nat)
    (hval : validateCredentials req.username req.email (normalizePhone req) req.password = none)
    (hu : usernameTaken d (trimSpace req.username) = false)
    (he : emailTaken d (trimSpace req.email) = false) :
    handleRegister cfg d req salt now =
      (.ok (registeredUser d req salt now),
       { users := d.users ++ [registeredUser d req salt now], nextId := d.nextId + 1 }) := by
  unfold handleRegister CreateUser
  simp only [hval]
  simp [hu, he, registeredUser, hashPassword]

/-- Registration against a taken username or email, fully evaluated. -/
theorem handleRegister_conflict (cfg : Config) (d : Directory) (req : RegisterRequest)
    (salt now : Nat)
    (hval : validateCredentials req.username req.email (normalizePhone req) req.password = none)
    (htaken : (usernameTaken d (trimSpace req.username) ||
               emailTaken d (trimSpace req.email)) = true) :
    handleRegister cfg d req salt now =
      (.error { status := 409, message := "user already exists" }, d) := by
  unfold handleRegister CreateUser
  simp only [hval]
  simp [htaken]

/-- Inversion: what a successful `handleRegister` tells us. -/
theorem handleRegister_ok_inv (cfg : Config) (d : Directory) (req : RegisterRequest)
    (salt now : Nat) (created : User) (d2 : Directory)
    (h : handleRegister cfg d req salt now = (.ok created, d2)) :
    created = registeredUser d req salt now ∧
      d2 = { users := d.users ++ [created], nextId := d.nextId + 1 } := by
  unfold handleRegister CreateUser at h
  cases hval : validateCredentials req.username req.email (normalizePhone req) req.password with
  | some msg => simp only [hval] at h; simp at h
  | none =>
    simp only [hval] at h
    by_cases hcond : (usernameTaken d (trimSpace req.username) ||
        emailTaken d (trimSpace req.email)) = true
    · simp [hcond] at h
    · simp only [Bool.not_eq_true] at hcond
      simp [hcond, registeredUser, hashPassword] at h
      obtain ⟨h1, h2⟩ := h
      constructor
      · rw [← h1]; rfl
      · rw [← h2, ← h1]

/-- A lookup that only the appended record satisfies. -/
theorem find_appended (d : Directory) (created : User) (n : Nat) (ident : String)
    (hmiss : ∀ u ∈ d.users, (u.username == ident || u.email == ident) = false)
    (hhit : (created.username == ident || created.email == ident) = true) :
    FindByUsernameOrEmail { users := d.users ++ [created], nextId := n } ident =
      .ok created := by
  unfold FindByUsernameOrEmail
  rw [show (⟨d.users ++ [created], n⟩ : Directory).users = d.users ++ [created] from rfl]
  rw [find?_append_of_none hmiss]
  simp [List.find?_cons, hhit]

/-- Successful login, fully evaluated. -/
theorem handleLogin_ok (tm : TokenManager) (d : Directory) (req : LoginRequest)
    (now : Nat) (user : User)
    (hid : trimSpace req.identifier ≠ "")
    (hpw : trimSpace req.password ≠ "")
    (hfind : FindByUsernameOrEmail d (trimSpace req.identifier) = .ok user)
    (hcmp : compareHashAndPassword user.passwordHash req.password = true) :
    handleLogin tm d req now = .ok (tm.Generate user now, user) := by
  unfold handleLogin
  rw [hfind]
  simp [hid, hpw, hcmp]

/-- Example configuration used by concrete witnesses. -/
def cfgEx : Config :=
  { jwtSecret := "supersecret", jwtIssuer := "all-in-backend",
    jwtTTL := 60 * 60 * nsPerSecond, initBalance := 100 }

/-- Example token manager (secret, issuer, 60-minute TTL). -/
def tmEx : TokenManager :=
  NewTokenManager "supersecret" "all-in-backend" (60 * 60 * nsPerSecond)

/-- Example registration request (the spec's worked example). -/
def reqEx : RegisterRequest :=
  { username := "alex", email := "alex@x.com", phone := "+1555",
    phoneNumber := "", password := "Password1" }

end AllInBe

namespace AllInBe

/-! ### Claims -/

/-- C1: for every registration input accepted by validation, Register
against a conflict-free directory succeeds, and an immediately following
Authenticate with the same identifier (that username or that email) and
the same password succeeds and returns a record whose id equals the id
of the record Register returned. -/
theorem register_then_login_roundtrip
    (cfg : Config) (tm : TokenManager) (d : Directory) (req : RegisterRequest)
    (salt now now₁ now₂ : Nat)
    (hval : validateCredentials req.username req.email (normalizePhone req) req.password = none)
    (hconf : conflictFree d (trimSpace req.username) (trimSpace req.email)) :
    ∃ created d2,
      handleRegister cfg d req salt now = (Except.ok created, d2) ∧
      (∃ tok u, handleLogin tm d2 { identifier := req.username, password := req.password } now₁ =
          Except.ok (tok, u) ∧ u.id = created.id) ∧
      (∃ tok u, handleLogin tm d2 { identifier := req.email, password := req.password } now₂ =
          Except.ok (tok, u) ∧ u.id = created.id) := by
  obtain ⟨hune, hene, -, hpw8⟩ := (validate_none_iff _ _ _ _).mp hval
  have hunot : usernameTaken d (trimSpace req.username) = false :=
    usernameTaken_eq_false (fun u hu => (hconf u hu).1)
  have henot : emailTaken d (trimSpace req.email) = false :=
    emailTaken_eq_false (fun u hu => (hconf u hu).2.2.2)
  have hreg := handleRegister_ok cfg d req salt now hval hunot henot
  have hpwne : trimSpace req.password ≠ "" := ne_empty_of_goLen_ge _ hpw8
  refine ⟨registeredUser d req salt now, _, hreg, ?_, ?_⟩
  · have hfind : FindByUsernameOrEmail
        { users := d.users ++ [registeredUser d req salt now], nextId := d.nextId + 1 }
        (trimSpace req.username) = .ok (registeredUser d req salt now) := by
      apply find_appended
      · intro u hu
        simp [beq_eq_false_iff_ne, (hconf u hu).1, (hconf u hu).2.2.1]
      · simp [registeredUser]
    exact ⟨_, _, handleLogin_ok tm _ _ now₁ _ hune hpwne hfind
      (by simp [registeredUser, compareHashAndPassword, hashPassword]), rfl⟩
  · have hfind : FindByUsernameOrEmail
        { users := d.users ++ [registeredUser d req salt now], nextId := d.nextId + 1 }
        (trimSpace req.email) = .ok (registeredUser d req salt now) := by
      apply find_appended
      · intro u hu
        simp [beq_eq_false_iff_ne, (hconf u hu).2.1, (hconf u hu).2.2.2]
      · simp [registeredUser]
    exact ⟨_, _, handleLogin_ok tm _ _ now₂ _ hene hpwne hfind
      (by simp [registeredUser, compareHashAndPassword, hashPassword]), rfl⟩

/-- C1 witness: the spec's worked example on the empty directory. -/
theorem register_then_login_roundtrip_witness :
    ∃ created d2,
      handleRegister cfgEx emptyDir reqEx 1 0 = (Except.ok created, d2) ∧
      (∃ tok u, handleLogin tmEx d2 { identifier := "alex", password := "Password1" } 0 =
          Except.ok (tok, u) ∧ u.id = created.id) ∧
      (∃ tok u, handleLogin tmEx d2 { identifier := "alex@x.com", password := "Password1" } 0 =
          Except.ok (tok, u) ∧ u.id = created.id) :=
  register_then_login_roundtrip cfgEx tmEx emptyDir reqEx 1 0 0 0
    (by decide) (by intro u hu; simp [emptyDir] at hu)

/-- Second registration attempt colliding with `reqEx` on the username. -/
def requEx : RegisterRequest :=
  { username := "alex", email := "other@x.com", phone := "+1555",
    phoneNumber := "", password := "Password1" }

/-- Second registration attempt colliding with `reqEx` on the email. -/
def reqeEx : RegisterRequest :=
  { username := "bob", email := "alex@x.com", phone := "+1555",
    phoneNumber := "", password := "Password1" }

/-- The directory after registering `reqEx` into the empty directory. -/
def d2Ex : Directory :=
  { users := [registeredUser emptyDir reqEx 1 0], nextId := 2 }

/-- C2: after a successful registration, a second attempt colliding on
the username (with a different email) and one colliding on the email
(with a different username) both produce the one Conflict response with
the same outward message, so the caller cannot tell which field
collided. -/
theorem register_conflict_uniform
    (cfg : Config) (d : Directory) (req1 requ reqe : RegisterRequest)
    (salt now salt' now' : Nat) (created : User) (d2 : Directory)
    (hreg : handleRegister cfg d req1 salt now = (Except.ok created, d2))
    (hvu : validateCredentials requ.username requ.email (normalizePhone requ) requ.password = none)
    (hve : validateCredentials reqe.username reqe.email (normalizePhone reqe) reqe.password = none)
    (husern : trimSpace requ.username = created.username)
    (_huem : trimSpace requ.email ≠ created.email)
    (heem : trimSpace reqe.email = created.email)
    (_heusern : trimSpace reqe.username ≠ created.username) :
    handleRegister cfg d2 requ salt' now' =
      (Except.error { status := 409, message := "user already exists" }, d2) ∧
    handleRegister cfg d2 reqe salt' now' =
      (Except.error { status := 409, message := "user already exists" }, d2) ∧
    (handleRegister cfg d2 requ salt' now').1 = (handleRegister cfg d2 reqe salt' now').1 := by
  obtain ⟨-, hd2⟩ := handleRegister_ok_inv _ _ _ _ _ _ _ hreg
  have hmem : created ∈ d2.users := by rw [hd2]; simp
  have h1 : usernameTaken d2 (trimSpace requ.username) = true := by
    simp only [usernameTaken, List.any_eq_true]
    exact ⟨created, hmem, by simp [husern]⟩
  have h2 : emailTaken d2 (trimSpace reqe.email) = true := by
    simp only [emailTaken, List.any_eq_true]
    exact ⟨created, hmem, by simp [heem]⟩
  have hru := handleRegister_conflict cfg d2 requ salt' now' hvu (by simp [h1])
  have hre := handleRegister_conflict cfg d2 reqe salt' now' hve (by simp [h2])
  exact ⟨hru, hre, by rw [hru, hre]⟩

/-- C2 witness: colliding registrations after registering `alex`. -/
theorem register_conflict_uniform_witness :
    handleRegister cfgEx d2Ex requEx 2 1 =
      (Except.error { status := 409, message := "user already exists" }, d2Ex) ∧
    handleRegister cfgEx d2Ex reqeEx 2 1 =
      (Except.error { status := 409, message := "user already exists" }, d2Ex) ∧
    (handleRegister cfgEx d2Ex requEx 2 1).1 = (handleRegister cfgEx d2Ex reqeEx 2 1).1 :=
  register_conflict_uniform cfgEx emptyDir reqEx requEx reqeEx 1 0 2 1
    (registeredUser emptyDir reqEx 1 0) d2Ex rfl
    (by decide) (by decide) (by decide) (by decide) (by decide) (by decide)

/-- C3 counterexample: with the non-empty identifier `" "` (which
matches no record) and a non-empty password, Authenticate reports the
ValidationError, not the Unauthorized condition — the claim's scope
"every non-empty identifier" fails for whitespace-only values. -/
theorem login_whitespace_identifier_not_unauthorized :
    (" " : String) ≠ "" ∧ ("secretpw" : String) ≠ "" ∧
    handleLogin tmEx emptyDir { identifier := " ", password := "secretpw" } 0 =
      Except.error { status := 400, message := "identifier and password are required" } ∧
    ({ status := 400, message := "identifier and password are required" } : ErrorResponse) ≠
      { status := 401, message := "invalid credentials" } :=
  ⟨by decide, by decide, rfl, by decide⟩

/-- Uniform Unauthorized: unknown trimmed identifier and failed bcrypt
comparison produce the identical 401 response. -/
theorem handleLogin_unauthorized
    (tm : TokenManager) (d : Directory) (req : LoginRequest) (now : Nat)
    (hid : trimSpace req.identifier ≠ "") (hpw : trimSpace req.password ≠ "")
    (hcase : FindByUsernameOrEmail d (trimSpace req.identifier) = .error .notFound ∨
      ∃ u, FindByUsernameOrEmail d (trimSpace req.identifier) = .ok u ∧
        compareHashAndPassword u.passwordHash req.password = false) :
    handleLogin tm d req now =
      Except.error { status := 401, message := "invalid credentials" } := by
  unfold handleLogin
  rcases hcase with hnf | ⟨u, hfind, hcmp⟩
  · rw [hnf]
    simp [hid, hpw]
  · rw [hfind]
    simp [hid, hpw, hcmp]

/-- C3 (amended): for every directory state and every identifier and
password that are non-empty after trimming whitespace, Authenticate with
an identifier matching no record and Authenticate with a matching
record but a non-verifying password produce the identical Unauthorized
condition (status 401, message "invalid credentials"), never a distinct
not-found result. -/
theorem login_unauthorized_uniform
    (tm : TokenManager) (d : Directory) (req : LoginRequest) (now : Nat)
    (hid : trimSpace req.identifier ≠ "") (hpw : trimSpace req.password ≠ "")
    (hcase : FindByUsernameOrEmail d (trimSpace req.identifier) = .error .notFound ∨
      ∃ u, FindByUsernameOrEmail d (trimSpace req.identifier) = .ok u ∧
        compareHashAndPassword u.passwordHash req.password = false) :
    handleLogin tm d req now =
      Except.error { status := 401, message := "invalid credentials" } :=
  handleLogin_unauthorized tm d req now hid hpw hcase

/-- C3 witness: both failure scenarios on the directory holding `alex`. -/
theorem login_unauthorized_uniform_witness :
    handleLogin tmEx d2Ex { identifier := "ghost", password := "Password1" } 0 =
      Except.error { status := 401, message := "invalid credentials" } ∧
    handleLogin tmEx d2Ex { identifier := "alex", password := "WrongPass1" } 0 =
      Except.error { status := 401, message := "invalid credentials" } :=
  ⟨login_unauthorized_uniform tmEx d2Ex _ 0 (by decide) (by decide) (Or.inl rfl),
   login_unauthorized_uniform tmEx d2Ex _ 0 (by decide) (by decide)
     (Or.inr ⟨registeredUser emptyDir reqEx 1 0, rfl, by decide⟩)⟩

/-- C4 counterexample: a 7-character password of two-byte characters is
accepted (the code counts UTF-8 bytes, not text units), and a
well-formed 8-character password with leading whitespace is rejected
(the length check trims first). -/
theorem validate_length_counterexample :
    ("ααααααα" : String).data.length = 7 ∧
    validateCredentials "alex" "alex@x.com" "+1555" "ααααααα" = none ∧
    (" passwd1" : String).data.length = 8 ∧
    validateCredentials "alex" "alex@x.com" "+1555" " passwd1" =
      some "password must be at least 8 characters" :=
  ⟨by decide, by decide, by decide, by decide⟩

/-- C4 (amended): Validate fails exactly when username, email, or phone
is empty after trimming whitespace, or the whitespace-trimmed password
has fewer than 8 UTF-8 bytes (the well-formed-text condition is vacuous
on the embedded domain of well-formed strings). -/
theorem validate_fails_characterization
    (username email phone password : String) :
    validateCredentials username email phone password = none ↔
      (trimSpace username ≠ "" ∧ trimSpace email ≠ "" ∧ trimSpace phone ≠ "" ∧
        8 ≤ goLen (trimSpace password)) :=
  validate_none_iff username email phone password

/-- C5: for every identity record, Generate produces a token whose
claims set has issuer = configured issuer, subject = decimal text of the
id, the username and email, issued-at = issuance time (Unix seconds),
not-before = issued-at, expiry = issued-at + the configured TTL (a whole
number of minutes); the token is signed HS256 under the configured
secret. -/
theorem generate_token_claims
    (t : TokenManager) (user : User) (now m : Nat)
    (h : t.ttl = m * 60 * nsPerSecond) :
    (t.Generate user now).alg = "HS256" ∧
    (t.Generate user now).signedWith = t.secret ∧
    (t.Generate user now).claims.iss = t.issuer ∧
    (t.Generate user now).claims.sub = toString user.id ∧
    (t.Generate user now).claims.username = user.username ∧
    (t.Generate user now).claims.email = user.email ∧
    (t.Generate user now).claims.iat = now / nsPerSecond ∧
    (t.Generate user now).claims.nbf = (t.Generate user now).claims.iat ∧
    (t.Generate user now).claims.exp = (t.Generate user now).claims.iat + m * 60 := by
  refine ⟨rfl, rfl, rfl, rfl, rfl, rfl, rfl, rfl, ?_⟩
  show (now + t.ttl) / nsPerSecond = now / nsPerSecond + m * 60
  rw [h]
  exact Nat.add_mul_div_right now (m * 60) (by norm_num [nsPerSecond])

/-- C5 witness: the 60-minute example manager at a concrete instant. -/
theorem generate_token_claims_witness :
    (tmEx.Generate (registeredUser emptyDir reqEx 1 0) 1700000000123456789).alg = "HS256" ∧
    (tmEx.Generate (registeredUser emptyDir reqEx 1 0) 1700000000123456789).signedWith =
      tmEx.secret ∧
    (tmEx.Generate (registeredUser emptyDir reqEx 1 0) 1700000000123456789).claims.iss =
      tmEx.issuer ∧
    (tmEx.Generate (registeredUser emptyDir reqEx 1 0) 1700000000123456789).claims.sub =
      toString (registeredUser emptyDir reqEx 1 0).id ∧
    (tmEx.Generate (registeredUser emptyDir reqEx 1 0) 1700000000123456789).claims.username =
      (registeredUser emptyDir reqEx 1 0).username ∧
    (tmEx.Generate (registeredUser emptyDir reqEx 1 0) 1700000000123456789).claims.email =
      (registeredUser emptyDir reqEx 1 0).email ∧
    (tmEx.Generate (registeredUser emptyDir reqEx 1 0) 1700000000123456789).claims.iat =
      1700000000123456789 / nsPerSecond ∧
    (tmEx.Generate (registeredUser emptyDir reqEx 1 0) 1700000000123456789).claims.nbf =
      (tmEx.Generate (registeredUser emptyDir reqEx 1 0) 1700000000123456789).claims.iat ∧
    (tmEx.Generate (registeredUser emptyDir reqEx 1 0) 1700000000123456789).claims.exp =
      (tmEx.Generate (registeredUser emptyDir reqEx 1 0) 1700000000123456789).claims.iat +
        60 * 60 :=
  generate_token_claims tmEx (registeredUser emptyDir reqEx 1 0) 1700000000123456789 60 rfl

/-- C6: hashing the same password under the two distinct salts of two
invocations yields two different encoded outputs, and each output
verifies against the password. -/
theorem hashPassword_two_salts
    (p : String) (s₁ s₂ : Nat) (h : s₁ ≠ s₂) :
    hashPassword s₁ p ≠ hashPassword s₂ p ∧
    compareHashAndPassword (hashPassword s₁ p) p = true ∧
    compareHashAndPassword (hashPassword s₂ p) p = true := by
  refine ⟨?_, by simp [compareHashAndPassword, hashPassword],
    by simp [compareHashAndPassword, hashPassword]⟩
  intro he
  apply h
  simpa [hashPassword] using congrArg BcryptHash.salt he

/-- C6 witness: two concrete salts for `"Password1"`. -/
theorem hashPassword_two_salts_witness :
    hashPassword 1 "Password1" ≠ hashPassword 2 "Password1" ∧
    compareHashAndPassword (hashPassword 1 "Password1") "Password1" = true ∧
    compareHashAndPassword (hashPassword 2 "Password1") "Password1" = true :=
  hashPassword_two_salts "Password1" 1 2 (by decide)

/-- C7: a Register that fails validation returns the ValidationError
with the directory unchanged, and the outcome is the same for every
salt the entropy source could have produced — no hashing and no
directory call is observable. -/
theorem register_validation_error_pure
    (cfg : Config) (d : Directory) (req : RegisterRequest) (now : Nat) (msg : String)
    (hval : validateCredentials req.username req.email (normalizePhone req) req.password =
      some msg) :
    ∀ salt, handleRegister cfg d req salt now =
      (Except.error { status := 400, message := msg }, d) := by
  intro salt
  unfold handleRegister
  simp only [hval]

/-- Registration request with a too-short password. -/
def reqShortEx : RegisterRequest :=
  { username := "erin", email := "erin@x.com", phone := "+1555",
    phoneNumber := "", password := "short" }

/-- C7 witness: the invalid request leaves the populated directory
untouched, identically for two different salts. -/
theorem register_validation_error_pure_witness :
    handleRegister cfgEx d2Ex reqShortEx 7 3 =
      (Except.error { status := 400, message := "password must be at least 8 characters" },
        d2Ex) ∧
    handleRegister cfgEx d2Ex reqShortEx 99 3 =
      (Except.error { status := 400, message := "password must be at least 8 characters" },
        d2Ex) :=
  ⟨register_validation_error_pure cfgEx d2Ex reqShortEx 3 _ (by decide) 7,
   register_validation_error_pure cfgEx d2Ex reqShortEx 3 _ (by decide) 99⟩

/-- C8: every record the core returns outward — the created record from
Register and the user in the Authenticate response — serializes to a
view with no password-hash field, and that view does not depend on the
hash the in-memory record carries (which is the bcrypt hash of the
submitted password). -/
theorem outward_view_omits_password_hash
    (cfg : Config) (d : Directory) (req : RegisterRequest) (salt now : Nat)
    (tm : TokenManager) (lreq : LoginRequest) (now' : Nat) :
    (∀ created d2, handleRegister cfg d req salt now = (Except.ok created, d2) →
      created.passwordHash = hashPassword salt req.password ∧
      "password_hash" ∉ (userJSON created).map Prod.fst ∧
      ∀ h, userJSON { created with passwordHash := h } = userJSON created) ∧
    (∀ tok u, handleLogin tm d lreq now' = Except.ok (tok, u) →
      "password_hash" ∉ (userJSON u).map Prod.fst ∧
      ∀ h, userJSON { u with passwordHash := h } = userJSON u) := by
  constructor
  · intro created d2 hreg
    obtain ⟨hc, -⟩ := handleRegister_ok_inv _ _ _ _ _ _ _ hreg
    refine ⟨by rw [hc]; rfl, by simp [userJSON], fun h => by simp [userJSON]⟩
  · intro tok u _
    exact ⟨by simp [userJSON], fun h => by simp [userJSON]⟩

/-- C8 witness: the concrete created record carries the hash of
`"Password1"`, yet its serialized view has no password-hash key and is
unchanged under replacing the hash. -/
theorem outward_view_omits_password_hash_witness :
    (registeredUser emptyDir reqEx 1 0).passwordHash = hashPassword 1 "Password1" ∧
    "password_hash" ∉ (userJSON (registeredUser emptyDir reqEx 1 0)).map Prod.fst ∧
    userJSON { registeredUser emptyDir reqEx 1 0 with passwordHash := hashPassword 9 "other" } =
      userJSON (registeredUser emptyDir reqEx 1 0) := by
  obtain ⟨h1, h2, h3⟩ :=
    (outward_view_omits_password_hash cfgEx emptyDir reqEx 1 0 tmEx
      { identifier := "alex", password := "Password1" } 0).1
      (registeredUser emptyDir reqEx 1 0) d2Ex rfl
  exact ⟨h1, h2, h3 _⟩

/-- C9: the minimum-length check applies to the whitespace-trimmed
password while the raw password is hashed and compared: a password whose
trimmed form is shorter than 8 bytes is rejected regardless of its raw
length, and an accepted password with surrounding whitespace must be
replayed intact — its trimmed form is Unauthorized at login while the
raw form authenticates. -/
theorem password_trim_asymmetry
    (cfg : Config) (tm : TokenManager) (d : Directory) (req : RegisterRequest)
    (salt now now₁ now₂ : Nat)
    (hval : validateCredentials req.username req.email (normalizePhone req) req.password = none)
    (hconf : conflictFree d (trimSpace req.username) (trimSpace req.email))
    (hws : trimSpace req.password ≠ req.password) :
    (∀ u e p pw, goLen (trimSpace pw) < 8 → validateCredentials u e p pw ≠ none) ∧
    ∃ created d2,
      handleRegister cfg d req salt now = (Except.ok created, d2) ∧
      created.passwordHash = hashPassword salt req.password ∧
      handleLogin tm d2 { identifier := req.username, password := trimSpace req.password } now₁ =
        Except.error { status := 401, message := "invalid credentials" } ∧
      ∃ tok u, handleLogin tm d2 { identifier := req.username, password := req.password } now₂ =
        Except.ok (tok, u) := by
  constructor
  · intro u e p pw hlen hn
    obtain ⟨-, -, -, h8⟩ := (validate_none_iff _ _ _ _).mp hn
    omega
  obtain ⟨hune, -, -, hpw8⟩ := (validate_none_iff _ _ _ _).mp hval
  have hunot : usernameTaken d (trimSpace req.username) = false :=
    usernameTaken_eq_false (fun u hu => (hconf u hu).1)
  have henot : emailTaken d (trimSpace req.email) = false :=
    emailTaken_eq_false (fun u hu => (hconf u hu).2.2.2)
  have hreg := handleRegister_ok cfg d req salt now hval hunot henot
  have hpwne : trimSpace req.password ≠ "" := ne_empty_of_goLen_ge _ hpw8
  have hfind : FindByUsernameOrEmail
      { users := d.users ++ [registeredUser d req salt now], nextId := d.nextId + 1 }
      (trimSpace req.username) = .ok (registeredUser d req salt now) := by
    apply find_appended
    · intro u hu
      simp [beq_eq_false_iff_ne, (hconf u hu).1, (hconf u hu).2.2.1]
    · simp [registeredUser]
  refine ⟨registeredUser d req salt now, _, hreg, rfl, ?_, ?_⟩
  · apply handleLogin_unauthorized
    · exact hune
    · show trimSpace (trimSpace req.password) ≠ ""
      rw [trimSpace_trimSpace]
      exact hpwne
    · refine Or.inr ⟨registeredUser d req salt now, hfind, ?_⟩
      simp only [registeredUser, compareHashAndPassword, hashPassword]
      simp [beq_eq_false_iff_ne]
      exact fun hh => hws hh.symm
  · exact ⟨_, _, handleLogin_ok tm _ _ now₂ _ hune hpwne hfind
      (by simp [registeredUser, compareHashAndPassword, hashPassword])⟩

/-- Registration request whose password carries surrounding whitespace. -/
def reqPadEx : RegisterRequest :=
  { username := "dora", email := "dora@x.com", phone := "+1555",
    phoneNumber := "", password := " Password1 " }

/-- C9 witness: `" Password1 "` registers, its trimmed replay is
rejected, its exact replay authenticates. -/
theorem password_trim_asymmetry_witness :
    (∀ u e p pw, goLen (trimSpace pw) < 8 → validateCredentials u e p pw ≠ none) ∧
    ∃ created d2,
      handleRegister cfgEx emptyDir reqPadEx 1 0 = (Except.ok created, d2) ∧
      created.passwordHash = hashPassword 1 " Password1 " ∧
      handleLogin tmEx d2 { identifier := "dora", password := trimSpace " Password1 " } 0 =
        Except.error { status := 401, message := "invalid credentials" } ∧
      ∃ tok u, handleLogin tmEx d2 { identifier := "dora", password := " Password1 " } 0 =
        Except.ok (tok, u) :=
  password_trim_asymmetry cfgEx tmEx emptyDir reqPadEx 1 0 0 0
    (by decide) (by intro u hu; simp [emptyDir] at hu) (by decide)

/-- C10: the phone used for validation and storage is the trimmed
`phone` field when non-empty after trimming and otherwise the trimmed
`phoneNumber` field; a request supplying only `phoneNumber` registers
successfully with that value as the phone. -/
theorem phone_fallback_to_phoneNumber
    (cfg : Config) (d : Directory) (req : RegisterRequest) (salt now : Nat)
    (hphone : trimSpace req.phone = "")
    (hval : validateCredentials req.username req.email (trimSpace req.phoneNumber)
      req.password = none)
    (hconf : conflictFree d (trimSpace req.username) (trimSpace req.email)) :
    normalizePhone req = trimSpace req.phoneNumber ∧
    (∀ req' : RegisterRequest, trimSpace req'.phone ≠ "" →
      normalizePhone req' = trimSpace req'.phone) ∧
    ∃ created d2, handleRegister cfg d req salt now = (Except.ok created, d2) ∧
      created.phone = trimSpace req.phoneNumber := by
  have hnp : normalizePhone req = trimSpace req.phoneNumber := by
    simp [normalizePhone, hphone]
  refine ⟨hnp, fun req' h' => by simp [normalizePhone, h'], ?_⟩
  have hval' : validateCredentials req.username req.email (normalizePhone req)
      req.password = none := by rw [hnp]; exact hval
  have hunot : usernameTaken d (trimSpace req.username) = false :=
    usernameTaken_eq_false (fun u hu => (hconf u hu).1)
  have henot : emailTaken d (trimSpace req.email) = false :=
    emailTaken_eq_false (fun u hu => (hconf u hu).2.2.2)
  exact ⟨_, _, handleRegister_ok cfg d req salt now hval' hunot henot,
    by simp [registeredUser, hnp]⟩

/-- Registration request supplying only `phoneNumber`. -/
def reqPhoneEx : RegisterRequest :=
  { username := "carol", email := "carol@x.com", phone := "",
    phoneNumber := " +60123456789 ", password := "Password1" }

/-- C10 witness: a request with an empty `phone` and a padded
`phoneNumber` registers with the trimmed `phoneNumber` as the phone. -/
theorem phone_fallback_to_phoneNumber_witness :
    normalizePhone reqPhoneEx = trimSpace " +60123456789 " ∧
    (∀ req' : RegisterRequest, trimSpace req'.phone ≠ "" →
      normalizePhone req' = trimSpace req'.phone) ∧
    ∃ created d2, handleRegister cfgEx emptyDir reqPhoneEx 1 0 = (Except.ok created, d2) ∧
      created.phone = trimSpace " +60123456789 " :=
  phone_fallback_to_phoneNumber cfgEx emptyDir reqPhoneEx 1 0
    (by decide) (by decide) (by intro u hu; simp [emptyDir] at hu)

end AllInBe
